import Mathlib

/-!
Verification of the system-clock core of `gstsystemclock.c` (entry scheduler:
synchronous waits, asynchronous dispatch, unscheduling).  The definitions below
are a shallow embedding of the C functions; concurrency is modelled by passing
the environment's interleaved actions (status overwrites, wakeup outcomes,
time reads) explicitly as data.
-/

namespace GstSystemClock

/-- `GstClockReturn` (from gstclock.h), the status/result values used by
gstsystemclock.c. -/
inductive GstClockReturn where
  | ok
  | early
  | unscheduled
  | busy
  | badtime
  | error
  | unsupported
  | done
deriving DecidableEq, Repr

/-- The modulus of `guint64` arithmetic, 2^64. -/
def U64 : Nat := 18446744073709551616

/-- Modelled from the spec: `GST_CLOCK_DIFF` is defined in gstclock.h, which is
not among the sources here.  The spec computes the signed quantity
`diff = deadline − now` (WaitCore step 3). -/
def gst_clock_diff (now deadline : Nat) : Int := (deadline : Int) - (now : Int)

/-- One clock entry (`GstClockEntry`), restricted to the fields the scheduler
reads and writes: deadline (`time`), `interval`, the periodic/single kind and
the `status`.  `id` stands for the entry's identity (pointer) so that distinct
entries with equal deadlines can be told apart. -/
structure Entry where
  id : Nat
  time : Nat
  interval : Nat
  periodic : Bool
  status : GstClockReturn
deriving DecidableEq, Repr

/-- `gst_system_clock_id_unschedule` (gstsystemclock.c lines 1461-1485): the
status is overwritten with UNSCHEDULED regardless of its prior value, and the
entry's wait primitive is broadcast exactly when the prior status was BUSY.
Returns the updated entry and whether the broadcast was performed. -/
def gst_system_clock_id_unschedule (e : Entry) : Entry × Bool :=
  ({ e with status := .unscheduled }, decide (e.status = .busy))

/-- Modelled from the spec: the pending queue is maintained by
`g_list_insert_sorted` with `gst_clock_id_compare_func` (gstclock.c), neither
of which is among the sources here.  Per the spec's `insert_sorted(entry)`:
"keep ascending order on deadline; on tie, insert after equal-deadline entries
already present (stable later-arrival-later-position)". -/
def insert_sorted (e : Entry) : List Entry → List Entry
  | [] => [e]
  | x :: xs => if e.time < x.time then e :: x :: xs else x :: insert_sorted e xs

/-- Which wakeup, if any, `gst_system_clock_id_wait_async` sends after
inserting the entry: the clock's `entries_changed` condition, the previous head
entry's wait primitive, or nothing. -/
inductive AsyncSignal where
  | clockCond
  | entryCond (id : Nat)
  | noSignal
deriving DecidableEq, Repr

/-- Result of one `gst_system_clock_id_wait_async` call: the returned
`GstClockReturn`, the pending queue afterwards, and the wakeup sent. -/
structure AsyncCall where
  ret : GstClockReturn
  queue : List Entry
  signal : AsyncSignal
deriving DecidableEq, Repr

/-- `gst_system_clock_id_wait_async` (gstsystemclock.c lines 1367-1452).
`threadStartOk` abstracts the outcome of `gst_system_clock_start_async`
(thread already running, or `g_thread_try_new` succeeded).  The call first
checks the thread start, then the entry's status, then inserts in sorted order
and decides which wakeup to send by comparing the new head with the entry and
inspecting the previous head's status. -/
def gst_system_clock_id_wait_async (threadStartOk : Bool) (queue : List Entry)
    (e : Entry) : AsyncCall :=
  if threadStartOk = false then ⟨.error, queue, .noSignal⟩
  else if e.status = .unscheduled then ⟨.unscheduled, queue, .noSignal⟩
  else
    let newQueue := insert_sorted e queue
    let signal :=
      if newQueue.head? = some e then
        match queue.head? with
        | none => AsyncSignal.clockCond
        | some h =>
          if h.status = .busy then AsyncSignal.entryCond h.id
          else AsyncSignal.noSignal
      else AsyncSignal.noSignal
    ⟨.ok, newQueue, signal⟩

/-- `gst_system_clock_async_thread`, periodic rearm (gstsystemclock.c lines
927 and 961-972): `requested = entry->time` is read before the wait; after the
callback is delivered the deadline becomes `requested + entry->interval`
(guint64 addition).  Returns the deadline the firing was requested for and the
rearmed entry. -/
def async_thread_fire_periodic (e : Entry) : Nat × Entry :=
  let requested := e.time
  (requested, { e with time := (requested + e.interval) % U64 })

/-- The entry after `k` periodic firings by the dispatcher. -/
def async_thread_fire_iter (e : Entry) : Nat → Entry
  | 0 => e
  | k + 1 => (async_thread_fire_periodic (async_thread_fire_iter e k)).2

/-- Environment actions observed during one iteration of the wait loop of
`gst_system_clock_id_wait_jitter_unlocked`: the raw outcome of the blocking
primitive (`sleepRc` is the `clock_nanosleep` return value, 0 meaning the full
sleep elapsed; `condSignalled` is whether the condition wait returned before
its timeout), the entry status found after reacquiring the entry lock
(`statusAtWake`, which other threads may have overwritten during the wait),
the status found after the unlocked time re-read (`statusAtRelock`), and the
re-read clock time and monotonic time. -/
structure LoopEvent where
  sleepRc : Int
  condSignalled : Bool
  statusAtWake : GstClockReturn
  statusAtRelock : GstClockReturn
  nextNow : Nat
  nextMono : Int
deriving DecidableEq, Repr

/-- Which blocking primitive a wait-loop iteration used. -/
inductive WaitBranch where
  | nanosleep
  | condwait
deriving DecidableEq, Repr

/-- Outcome of one wait-loop iteration: return from the function with a result
and the entry status left behind, or loop again with a recomputed `diff` and
monotonic timestamp (the entry status having been set back to BUSY). -/
inductive IterOut where
  | ret (r : GstClockReturn) (entryStatus : GstClockReturn)
  | again (diff mono : Int)
deriving DecidableEq, Repr

/-- Observables of one wait-loop iteration: the blocking primitive chosen, the
absolute monotonic target passed to it, the `waitret` flag the code computed,
and the iteration outcome. -/
structure IterStep where
  branch : WaitBranch
  target : Int
  waitret : Bool
  out : IterOut
deriving DecidableEq, Repr

/-- One iteration of the wait loop of
`gst_system_clock_id_wait_jitter_unlocked` (gstsystemclock.c lines 1169-1276),
entered with `diff > CLOCK_MIN_WAIT_TIME`:

* lines 1172-1181: when `HAVE_CLOCK_NANOSLEEP` and `diff <= 500us`, release the
  entry lock, `clock_nanosleep(CLOCK_MONOTONIC, TIMER_ABSTIME)` until
  `mono_ts * 1000 + diff`, reacquire the lock; the code sets
  `waitret = (clock_nanosleep(...) == 0)`;
* lines 1184-1188: otherwise (still under `HAVE_CLOCK_NANOSLEEP`) when
  `diff < 2ms`, first subtract 500us from `diff`;
* lines 1193-1195: otherwise wait on the entry's primitive until
  `mono_ts * 1000 + diff`, `waitret` being true when signalled before timeout;
* lines 1204-1211: re-read the status; UNSCHEDULED breaks out returning
  UNSCHEDULED; otherwise the status is overwritten with DONE;
* lines 1219-1227: if `waitret` and restarting is not allowed, return the
  status that was read (normally BUSY);
* lines 1236-1274: otherwise unlock, re-read the times, relock; UNSCHEDULED
  returns UNSCHEDULED; a recomputed `diff <= CLOCK_MIN_WAIT_TIME` sets the
  status to OK and returns OK; otherwise set the status back to BUSY and loop.

`minWait` is the platform's `CLOCK_MIN_WAIT_TIME`, `hasNanosleep` whether
`HAVE_CLOCK_NANOSLEEP` is defined, `entryt` the entry deadline read before the
loop. -/
def wait_loop_iter (restart hasNanosleep : Bool) (minWait : Int) (entryt : Nat)
    (diff mono : Int) (ev : LoopEvent) : IterStep :=
  let useNano := hasNanosleep && decide (diff ≤ 500 * 1000)
  let diff1 :=
    if useNano then diff
    else if hasNanosleep && decide (diff < 2 * 1000000) then diff - 500 * 1000
    else diff
  let waitret := if useNano then decide (ev.sleepRc = 0) else ev.condSignalled
  { branch := if useNano then .nanosleep else .condwait
    target := mono * 1000 + diff1
    waitret := waitret
    out :=
      if ev.statusAtWake = .unscheduled then .ret .unscheduled .unscheduled
      else if waitret && !restart then .ret ev.statusAtWake .done
      else if ev.statusAtRelock = .unscheduled then .ret .unscheduled .unscheduled
      else if gst_clock_diff ev.nextNow entryt ≤ minWait then .ret .ok .ok
      else .again (gst_clock_diff ev.nextNow entryt) ev.nextMono }

/-- The wait loop of `gst_system_clock_id_wait_jitter_unlocked`, iterated over
the environment's actions.  Returns `none` when the supplied trace of events
runs out before the loop returns (the loop is still running). -/
def wait_loop (restart hasNanosleep : Bool) (minWait : Int) (entryt : Nat)
    (diff mono : Int) : List LoopEvent → Option (GstClockReturn × GstClockReturn)
  | [] => none
  | ev :: evs =>
    match (wait_loop_iter restart hasNanosleep minWait entryt diff mono ev).out with
    | .ret r s => some (r, s)
    | .again d m => wait_loop restart hasNanosleep minWait entryt d m evs

/-- Environment actions observed by one `gst_system_clock_id_wait_jitter_unlocked`
call: the clock time and monotonic time of the initial unlocked reads, the
entry status found when relocking (line 1144), and the wait-loop events. -/
structure CoreEnv where
  now : Nat
  mono : Int
  statusAtRecheck : GstClockReturn
  events : List LoopEvent
deriving DecidableEq, Repr

/-- Result of one `gst_system_clock_id_wait_jitter_unlocked` call: the values
written through the `jitter` out-parameter (in order), whether the wait loop
was entered, and — unless the loop outlived the event trace — the returned
`GstClockReturn` paired with the entry status at return. -/
structure CoreResult where
  jitterWrites : List Int
  enteredLoop : Bool
  outcome : Option (GstClockReturn × GstClockReturn)
deriving DecidableEq, Repr

/-- `gst_system_clock_id_wait_jitter_unlocked` (gstsystemclock.c lines
1120-1287): unlock the entry, read the clock time and the monotonic time,
relock (modelled by `env`); return UNSCHEDULED if the status became
UNSCHEDULED meanwhile (lines 1144-1147); compute `diff` from the deadline and
write `-diff` through `jitter` when supplied (lines 1154-1156); enter the wait
loop when `diff > CLOCK_MIN_WAIT_TIME` (line 1164), else set the status to OK
and return OK when `diff == 0`, or set it to EARLY and return EARLY
(lines 1277-1284). -/
def gst_system_clock_id_wait_jitter_unlocked (restart hasNanosleep : Bool)
    (minWait : Int) (entryt : Nat) (jitterPresent : Bool) (env : CoreEnv) :
    CoreResult :=
  if env.statusAtRecheck = .unscheduled then ⟨[], false, some (.unscheduled, .unscheduled)⟩
  else
    let diff := gst_clock_diff env.now entryt
    let writes := if jitterPresent then [-diff] else []
    if minWait < diff then
      ⟨writes, true, wait_loop restart hasNanosleep minWait entryt diff env.mono env.events⟩
    else if diff = 0 then ⟨writes, false, some (.ok, .ok)⟩
    else ⟨writes, false, some (.early, .early)⟩

/-- Result of one `gst_system_clock_id_wait_jitter` call: whether the
"unexpected status" anomaly was logged, whether the entry status was
overwritten with BUSY before waiting, and the returned value (`none` when the
inner wait loop outlived the event trace). -/
structure SyncCall where
  anomalyLogged : Bool
  statusSetBusy : Bool
  ret : Option GstClockReturn
deriving DecidableEq, Repr

/-- `gst_system_clock_id_wait_jitter` (gstsystemclock.c lines 1289-1324): read
the entry status; return UNSCHEDULED immediately if it is UNSCHEDULED; log an
anomaly if it is not OK; overwrite it with BUSY; and call
`gst_system_clock_id_wait_jitter_unlocked` with restart allowed. -/
def gst_system_clock_id_wait_jitter (hasNanosleep : Bool) (minWait : Int)
    (entryt : Nat) (jitterPresent : Bool) (initialStatus : GstClockReturn)
    (env : CoreEnv) : SyncCall :=
  if initialStatus = .unscheduled then ⟨false, false, some .unscheduled⟩
  else
    ⟨decide (initialStatus ≠ .ok), true,
      (gst_system_clock_id_wait_jitter_unlocked true hasNanosleep minWait entryt
          jitterPresent env).outcome.map Prod.fst⟩

/-! Helper lemmas about the queue insertion. -/

lemma mem_insert_sorted (e : Entry) :
    ∀ (q : List Entry) (x : Entry), x ∈ insert_sorted e q → x = e ∨ x ∈ q := by
  intro q
  induction q with
  | nil =>
    intro x h
    simp [insert_sorted] at h
    exact Or.inl h
  | cons y ys ih =>
    intro x h
    simp only [insert_sorted] at h
    split at h
    · rcases List.mem_cons.1 h with h1 | h1
      · exact Or.inl h1
      · exact Or.inr h1
    · rcases List.mem_cons.1 h with h1 | h1
      · exact Or.inr (List.mem_cons.2 (Or.inl h1))
      · rcases ih x h1 with h2 | h2
        · exact Or.inl h2
        · exact Or.inr (List.mem_cons.2 (Or.inr h2))

lemma insert_sorted_sorted (e : Entry) :
    ∀ q : List Entry, q.Sorted (fun a b => a.time ≤ b.time) →
      (insert_sorted e q).Sorted (fun a b => a.time ≤ b.time) := by
  intro q
  induction q with
  | nil =>
    intro _
    simp [insert_sorted]
  | cons y ys ih =>
    intro h
    rw [List.sorted_cons] at h
    simp only [insert_sorted]
    split
    · rename_i hc
      rw [List.sorted_cons]
      refine ⟨?_, ?_⟩
      · intro b hb
        rcases List.mem_cons.1 hb with h1 | h1
        · subst h1; exact Nat.le_of_lt hc
        · exact Nat.le_trans (Nat.le_of_lt hc) (h.1 b h1)
      · rw [List.sorted_cons]
        exact h
    · rename_i hc
      rw [List.sorted_cons]
      refine ⟨?_, ih h.2⟩
      intro b hb
      rcases mem_insert_sorted e ys b hb with h1 | h1
      · subst h1; exact Nat.le_of_not_lt hc
      · exact h.1 b h1

lemma insert_sorted_eq_take_drop (e : Entry) :
    ∀ q : List Entry,
      insert_sorted e q
        = q.takeWhile (fun x => x.time ≤ e.time)
          ++ e :: q.dropWhile (fun x => x.time ≤ e.time) := by
  intro q
  induction q with
  | nil => rfl
  | cons y ys ih =>
    simp only [insert_sorted, List.takeWhile_cons, List.dropWhile_cons]
    by_cases hc : e.time < y.time
    · have hd : decide (y.time ≤ e.time) = false := by
        simp [Nat.not_le.2 hc]
      simp [if_pos hc, hd]
    · have hd : decide (y.time ≤ e.time) = true := by
        simp [Nat.le_of_not_lt hc]
      simp [if_neg hc, hd, ih]

/-- Claim C2: `gst_system_clock_id_unschedule` sets the entry status to
Unscheduled for every prior status; invoking it twice leaves the same final
state as invoking it once, the second call finding a non-Busy status and so
performing no broadcast; and the status remains Unscheduled afterwards. -/
theorem c2_unschedule_idempotent (e : Entry) :
    (gst_system_clock_id_unschedule e).1.status = .unscheduled ∧
    gst_system_clock_id_unschedule (gst_system_clock_id_unschedule e).1
      = ((gst_system_clock_id_unschedule e).1, false) ∧
    (gst_system_clock_id_unschedule (gst_system_clock_id_unschedule e).1).1.status
      = .unscheduled := by
  simp [gst_system_clock_id_unschedule]

/-- Witness for C2 at a concrete Busy entry. -/
theorem c2_unschedule_idempotent_witness :
    (gst_system_clock_id_unschedule (⟨1, 10, 0, false, .busy⟩ : Entry)).1.status
      = .unscheduled ∧
    gst_system_clock_id_unschedule
        (gst_system_clock_id_unschedule (⟨1, 10, 0, false, .busy⟩ : Entry)).1
      = ((gst_system_clock_id_unschedule (⟨1, 10, 0, false, .busy⟩ : Entry)).1,
          false) ∧
    (gst_system_clock_id_unschedule
        (gst_system_clock_id_unschedule (⟨1, 10, 0, false, .busy⟩ : Entry)).1).1.status
      = .unscheduled :=
  c2_unschedule_idempotent ⟨1, 10, 0, false, .busy⟩

/-- Claim C3: for a periodic entry the dispatcher fires with requested
deadline `r` read before the wait, it sets the new deadline to exactly
`r + interval`; hence the `k`-th firing's requested deadline is
`time + k * interval`, independent of delivery times (which the rearm never
consults). -/
theorem c3_periodic_cadence (e : Entry) (k : Nat)
    (h : e.time + (k + 1) * e.interval < U64) :
    (async_thread_fire_periodic (async_thread_fire_iter e k)).1
      = (async_thread_fire_iter e k).time ∧
    (async_thread_fire_periodic (async_thread_fire_iter e k)).2.time
      = (async_thread_fire_iter e k).time + e.interval ∧
    (async_thread_fire_iter e k).time = e.time + k * e.interval := by
  have hint : ∀ n : Nat, (async_thread_fire_iter e n).interval = e.interval := by
    intro n
    induction n with
    | zero => rfl
    | succ n ih => simp [async_thread_fire_iter, async_thread_fire_periodic, ih]
  have htime : ∀ n : Nat, e.time + n * e.interval < U64 →
      (async_thread_fire_iter e n).time = e.time + n * e.interval := by
    intro n
    induction n with
    | zero => intro _; simp [async_thread_fire_iter]
    | succ n ih =>
      intro hn
      have hle : e.time + n * e.interval ≤ e.time + (n + 1) * e.interval := by
        have : n * e.interval ≤ (n + 1) * e.interval :=
          Nat.mul_le_mul_right _ (Nat.le_succ n)
        omega
      have hn0 : e.time + n * e.interval < U64 := Nat.lt_of_le_of_lt hle hn
      simp only [async_thread_fire_iter, async_thread_fire_periodic, hint n, ih hn0]
      rw [Nat.mod_eq_of_lt (by rw [Nat.succ_mul] at hn; omega)]
      rw [Nat.succ_mul]
      omega
  have hk : e.time + k * e.interval < U64 := by
    have : k * e.interval ≤ (k + 1) * e.interval :=
      Nat.mul_le_mul_right _ (Nat.le_succ k)
    omega
  refine ⟨rfl, ?_, htime k hk⟩
  simp only [async_thread_fire_periodic, hint k, htime k hk]
  rw [Nat.mod_eq_of_lt (by rw [Nat.succ_mul] at h; omega)]

/-- Witness for C3 at a concrete periodic entry (deadline 20, interval 30,
after 3 firings the requested deadline is 110 and the rearm sets 140). -/
theorem c3_periodic_cadence_witness :
    (async_thread_fire_periodic
        (async_thread_fire_iter ⟨1, 20, 30, true, .ok⟩ 3)).2.time
      = (async_thread_fire_iter ⟨1, 20, 30, true, .ok⟩ 3).time + 30 ∧
    (async_thread_fire_iter ⟨1, 20, 30, true, .ok⟩ 3).time = 20 + 3 * 30 :=
  ⟨(c3_periodic_cadence ⟨1, 20, 30, true, .ok⟩ 3 (by decide)).2.1,
   (c3_periodic_cadence ⟨1, 20, 30, true, .ok⟩ 3 (by decide)).2.2⟩

/-- Claim C4 as stated is refuted here: when the dispatcher thread cannot be
started and the entry's status is already Unscheduled at submission, the call
returns Error (the thread check comes first), not Unscheduled — contradicting
"returns Unscheduled if and only if the entry's status is already Unscheduled
at submission". -/
theorem c4_counterexample :
    (⟨1, 10, 0, false, .unscheduled⟩ : Entry).status = .unscheduled ∧
    (gst_system_clock_id_wait_async false [] ⟨1, 10, 0, false, .unscheduled⟩).ret
      = .error ∧
    ¬ (gst_system_clock_id_wait_async false [] ⟨1, 10, 0, false, .unscheduled⟩).ret
      = .unscheduled := by decide

/-- Claim C4, amended: `gst_system_clock_id_wait_async` returns Error iff the
dispatcher thread cannot be started; when the thread is running it returns
Unscheduled iff the entry's status is already Unscheduled at submission; in
either failure case the entry is not enqueued; and otherwise it enqueues the
entry in sorted order and returns OK. -/
theorem c4_wait_async_returns (threadStartOk : Bool) (q : List Entry) (e : Entry) :
    ((gst_system_clock_id_wait_async threadStartOk q e).ret = .error
      ↔ threadStartOk = false) ∧
    (threadStartOk = true →
      ((gst_system_clock_id_wait_async threadStartOk q e).ret = .unscheduled
        ↔ e.status = .unscheduled)) ∧
    ((gst_system_clock_id_wait_async threadStartOk q e).ret = .error ∨
        (gst_system_clock_id_wait_async threadStartOk q e).ret = .unscheduled →
      (gst_system_clock_id_wait_async threadStartOk q e).queue = q) ∧
    (threadStartOk = true → ¬ e.status = .unscheduled →
      (gst_system_clock_id_wait_async threadStartOk q e).ret = .ok ∧
      (gst_system_clock_id_wait_async threadStartOk q e).queue = insert_sorted e q) := by
  cases threadStartOk with
  | false => simp [gst_system_clock_id_wait_async]
  | true =>
    by_cases hs : e.status = .unscheduled
    · simp [gst_system_clock_id_wait_async, hs]
    · simp [gst_system_clock_id_wait_async, hs]

/-- Witness for C4 (amended) at a concrete successful submission. -/
theorem c4_wait_async_returns_witness :
    (gst_system_clock_id_wait_async true [] ⟨1, 10, 0, false, .ok⟩).ret = .ok ∧
    (gst_system_clock_id_wait_async true [] ⟨1, 10, 0, false, .ok⟩).queue
      = insert_sorted ⟨1, 10, 0, false, .ok⟩ [] :=
  (c4_wait_async_returns true [] ⟨1, 10, 0, false, .ok⟩).2.2.2 rfl (by decide)

/-- Claim C6: every insertion keeps the pending queue sorted ascending by
deadline, and the new entry lands after the (sorted) prefix of entries whose
deadline is less than or equal to its own — in particular after all
equal-deadline entries already present. -/
theorem c6_insert_sorted_stable (q : List Entry) (e : Entry)
    (h : q.Sorted (fun a b => a.time ≤ b.time)) :
    (insert_sorted e q).Sorted (fun a b => a.time ≤ b.time) ∧
    insert_sorted e q
      = q.takeWhile (fun x => x.time ≤ e.time)
        ++ e :: q.dropWhile (fun x => x.time ≤ e.time) :=
  ⟨insert_sorted_sorted e q h, insert_sorted_eq_take_drop e q⟩

/-- Witness for C6: inserting a deadline-10 entry into a sorted queue already
holding two deadline-10 entries places it after both of them. -/
theorem c6_insert_sorted_stable_witness :
    (insert_sorted ⟨4, 10, 0, false, .ok⟩
        [⟨1, 10, 0, false, .ok⟩, ⟨2, 10, 0, false, .ok⟩, ⟨3, 20, 0, false, .ok⟩]).Sorted
      (fun a b => a.time ≤ b.time) ∧
    insert_sorted ⟨4, 10, 0, false, .ok⟩
        [⟨1, 10, 0, false, .ok⟩, ⟨2, 10, 0, false, .ok⟩, ⟨3, 20, 0, false, .ok⟩]
      = [⟨1, 10, 0, false, .ok⟩, ⟨2, 10, 0, false, .ok⟩, ⟨4, 10, 0, false, .ok⟩,
          ⟨3, 20, 0, false, .ok⟩] := by
  have h := c6_insert_sorted_stable
    [⟨1, 10, 0, false, .ok⟩, ⟨2, 10, 0, false, .ok⟩, ⟨3, 20, 0, false, .ok⟩]
    ⟨4, 10, 0, false, .ok⟩ (by decide)
  exact ⟨h.1, by rw [h.2]; decide⟩

/-- Claim C1: when the entry is not already Unscheduled at the re-check and
the computed `diff` is at most `CLOCK_MIN_WAIT_TIME`, the call returns without
entering the wait loop, returning Early and setting the status to Early when
`diff` is nonzero, and returning OK and setting the status to OK when `diff`
is zero. -/
theorem c1_resolution_floor (restart hasNanosleep : Bool) (minWait : Int)
    (entryt : Nat) (jitterPresent : Bool) (env : CoreEnv)
    (h1 : ¬ env.statusAtRecheck = .unscheduled)
    (h2 : gst_clock_diff env.now entryt ≤ minWait) :
    (gst_system_clock_id_wait_jitter_unlocked restart hasNanosleep minWait
        entryt jitterPresent env).enteredLoop = false ∧
    (gst_clock_diff env.now entryt = 0 →
      (gst_system_clock_id_wait_jitter_unlocked restart hasNanosleep minWait
          entryt jitterPresent env).outcome = some (.ok, .ok)) ∧
    (¬ gst_clock_diff env.now entryt = 0 →
      (gst_system_clock_id_wait_jitter_unlocked restart hasNanosleep minWait
          entryt jitterPresent env).outcome = some (.early, .early)) := by
  unfold gst_system_clock_id_wait_jitter_unlocked
  rw [if_neg h1]
  have hng : ¬ minWait < gst_clock_diff env.now entryt := not_lt.2 h2
  by_cases h0 : gst_clock_diff env.now entryt = 0
  · rw [h0] at hng
    simp [hng, h0]
  · simp [hng, h0]

/-- Witness for C1: a late entry (deadline 900, now 1000, so diff = -100 which
is at most the 100ns floor) returns Early without entering the wait loop. -/
theorem c1_resolution_floor_witness :
    (gst_system_clock_id_wait_jitter_unlocked true true 100 900 true
        ⟨1000, 0, .busy, []⟩).enteredLoop = false ∧
    (gst_system_clock_id_wait_jitter_unlocked true true 100 900 true
        ⟨1000, 0, .busy, []⟩).outcome = some (.early, .early) :=
  ⟨(c1_resolution_floor true true 100 900 true ⟨1000, 0, .busy, []⟩
      (by decide) (by decide)).1,
   (c1_resolution_floor true true 100 900 true ⟨1000, 0, .busy, []⟩
      (by decide) (by decide)).2.2 (by decide)⟩

/-- Claim C5: in a successful submission, when the inserted entry becomes the
head of the queue, the clock condition is broadcast exactly when the queue was
empty before, and otherwise the previous head's wait primitive is broadcast
exactly when that head's status is Busy; when the inserted entry does not
become head, no signal of either kind is sent. -/
theorem c5_wait_async_head_signal (q : List Entry) (e : Entry)
    (h : ¬ e.status = .unscheduled) :
    ((insert_sorted e q).head? = some e →
      ((gst_system_clock_id_wait_async true q e).signal = .clockCond ↔ q = []) ∧
      (∀ p, q.head? = some p →
        ((gst_system_clock_id_wait_async true q e).signal = .entryCond p.id
          ↔ p.status = .busy))) ∧
    (¬ (insert_sorted e q).head? = some e →
      (gst_system_clock_id_wait_async true q e).signal = .noSignal) := by
  by_cases hh : (insert_sorted e q).head? = some e
  · refine ⟨fun _ => ?_, fun hc => absurd hh hc⟩
    cases q with
    | nil =>
      refine ⟨?_, ?_⟩
      · simp [gst_system_clock_id_wait_async, h, hh]
      · intro p hp
        simp at hp
    | cons y ys =>
      refine ⟨?_, ?_⟩
      · by_cases hb : y.status = .busy
        · simp [gst_system_clock_id_wait_async, h, hh, hb]
        · simp [gst_system_clock_id_wait_async, h, hh, hb]
      · intro p hp
        simp only [List.head?_cons, Option.some.injEq] at hp
        subst hp
        by_cases hb : y.status = .busy
        · simp [gst_system_clock_id_wait_async, h, hh, hb]
        · simp [gst_system_clock_id_wait_async, h, hh, hb]
  · refine ⟨fun hc => absurd hc hh, fun _ => ?_⟩
    simp [gst_system_clock_id_wait_async, h, hh]

/-- Witness for C5: submitting to an empty queue makes the new entry head and
broadcasts the clock condition. -/
theorem c5_wait_async_head_signal_witness :
    (gst_system_clock_id_wait_async true [] ⟨1, 10, 0, false, .ok⟩).signal
      = .clockCond :=
  (((c5_wait_async_head_signal [] ⟨1, 10, 0, false, .ok⟩ (by decide)).1
      (by decide)).1).mpr rfl

/-- Claim C7 evaluated on the code: with `clock_nanosleep` available,
`diff = 400us` (at most 500us) and restart not allowed (the async path), the
iteration does use the blocking nanosleep until `mono_ts * 1000 + diff` around
an unlock/relock of the entry lock — but a COMPLETED sleep
(`clock_nanosleep` returning 0) makes `waitret` true, so the post-wait
dispatch takes the signalled-wakeup branch and returns the pre-wait status
(Busy) instead of being handled as a timeout: the code computes
`waitret = (clock_nanosleep(...) == 0)`, inverting the meaning `waitret` has
on every other path. -/
theorem c7_completed_nanosleep_takes_signalled_branch :
    (wait_loop_iter false true 100 1000400000 400000 5000
        ⟨0, false, .busy, .busy, 1000000000, 5400⟩).branch = .nanosleep ∧
    (wait_loop_iter false true 100 1000400000 400000 5000
        ⟨0, false, .busy, .busy, 1000000000, 5400⟩).target = 5000 * 1000 + 400000 ∧
    (wait_loop_iter false true 100 1000400000 400000 5000
        ⟨0, false, .busy, .busy, 1000000000, 5400⟩).waitret = true ∧
    (wait_loop_iter false true 100 1000400000 400000 5000
        ⟨0, false, .busy, .busy, 1000000000, 5400⟩).out = .ret .busy .done := by
  decide

/-- When restart is allowed, one wait-loop iteration can only return OK or
Unscheduled: the early return through the signalled branch is disabled. -/
lemma wait_loop_iter_ret_restart (hasNanosleep : Bool) (minWait : Int)
    (entryt : Nat) (diff mono : Int) (ev : LoopEvent) (r s : GstClockReturn)
    (h : (wait_loop_iter true hasNanosleep minWait entryt diff mono ev).out
      = .ret r s) :
    r = .ok ∨ r = .unscheduled := by
  have hmain : (wait_loop_iter true hasNanosleep minWait entryt diff mono ev).out
      = (if ev.statusAtWake = .unscheduled then IterOut.ret .unscheduled .unscheduled
        else if ev.statusAtRelock = .unscheduled then IterOut.ret .unscheduled .unscheduled
        else if gst_clock_diff ev.nextNow entryt ≤ minWait then IterOut.ret .ok .ok
        else IterOut.again (gst_clock_diff ev.nextNow entryt) ev.nextMono) := by
    unfold wait_loop_iter
    simp
  rw [hmain] at h
  split at h
  · exact Or.inr (by cases h; rfl)
  · split at h
    · exact Or.inr (by cases h; rfl)
    · split at h
      · exact Or.inl (by cases h; rfl)
      · simp at h

/-- When restart is allowed, the whole wait loop can only return OK or
Unscheduled (when it returns at all within the event trace). -/
lemma wait_loop_ret_restart (hasNanosleep : Bool) (minWait : Int) (entryt : Nat) :
    ∀ (evs : List LoopEvent) (diff mono : Int) (r s : GstClockReturn),
      wait_loop true hasNanosleep minWait entryt diff mono evs = some (r, s) →
      r = .ok ∨ r = .unscheduled := by
  intro evs
  induction evs with
  | nil =>
    intro diff mono r s h
    simp [wait_loop] at h
  | cons ev evs ih =>
    intro diff mono r s h
    rw [wait_loop] at h
    rcases ho : (wait_loop_iter true hasNanosleep minWait entryt diff mono ev).out with
      ⟨r1, s1⟩ | ⟨d, m⟩
    · rw [ho] at h
      simp only [Option.some.injEq, Prod.mk.injEq] at h
      rcases h with ⟨hr, _⟩
      subst hr
      exact wait_loop_iter_ret_restart hasNanosleep minWait entryt diff mono ev _ _ ho
    · rw [ho] at h
      exact ih d m r s h

/-- Claim C8: the synchronous wait (`gst_system_clock_id_wait_jitter`, which
calls the core wait with restart allowed) never returns Busy; every value it
returns is OK, Early or Unscheduled. -/
theorem c8_sync_never_busy (hasNanosleep : Bool) (minWait : Int) (entryt : Nat)
    (jitterPresent : Bool) (initialStatus : GstClockReturn) (env : CoreEnv)
    (r : GstClockReturn)
    (h : (gst_system_clock_id_wait_jitter hasNanosleep minWait entryt
        jitterPresent initialStatus env).ret = some r) :
    r = .ok ∨ r = .early ∨ r = .unscheduled := by
  unfold gst_system_clock_id_wait_jitter at h
  by_cases hi : initialStatus = .unscheduled
  · rw [if_pos hi] at h
    simp only [Option.some.injEq] at h
    subst h
    exact Or.inr (Or.inr rfl)
  · rw [if_neg hi] at h
    simp only at h
    unfold gst_system_clock_id_wait_jitter_unlocked at h
    by_cases hu : env.statusAtRecheck = .unscheduled
    · rw [if_pos hu] at h
      simp only [Option.map_some', Option.some.injEq] at h
      subst h
      exact Or.inr (Or.inr rfl)
    · rw [if_neg hu] at h
      simp only at h
      by_cases hg : minWait < gst_clock_diff env.now entryt
      · rw [if_pos hg] at h
        simp only [Option.map_eq_some'] at h
        rcases h with ⟨⟨r1, s1⟩, hw, hf⟩
        rcases wait_loop_ret_restart hasNanosleep minWait entryt env.events _ _ _ _ hw with
          h1 | h1
        · subst h1
          exact Or.inl hf.symm
        · subst h1
          exact Or.inr (Or.inr hf.symm)
      · rw [if_neg hg] at h
        by_cases h0 : gst_clock_diff env.now entryt = 0
        · rw [if_pos h0] at h
          simp only [Option.map_some', Option.some.injEq] at h
          subst h
          exact Or.inl rfl
        · rw [if_neg h0] at h
          simp only [Option.map_some', Option.some.injEq] at h
          subst h
          exact Or.inr (Or.inl rfl)

/-- Witness for C8 at a concrete on-time entry: the sync wait returns OK. -/
theorem c8_sync_never_busy_witness :
    (gst_system_clock_id_wait_jitter true 100 1000 true .ok
        ⟨1000, 0, .busy, []⟩).ret = some .ok ∧
    (GstClockReturn.ok = .ok ∨ GstClockReturn.ok = .early ∨
      GstClockReturn.ok = .unscheduled) :=
  ⟨by decide,
   c8_sync_never_busy true 100 1000 true .ok ⟨1000, 0, .busy, []⟩ .ok (by decide)⟩

/-- Claim C9: with a jitter out-parameter supplied, finding the entry
Unscheduled at the initial re-check returns Unscheduled without writing to
the jitter; every path past that check writes the jitter exactly once, with
the value `-(deadline - now)` computed from the first time read. -/
theorem c9_jitter_frame (restart hasNanosleep : Bool) (minWait : Int)
    (entryt : Nat) (env : CoreEnv) :
    (env.statusAtRecheck = .unscheduled →
      gst_system_clock_id_wait_jitter_unlocked restart hasNanosleep minWait
          entryt true env
        = ⟨[], false, some (.unscheduled, .unscheduled)⟩) ∧
    (¬ env.statusAtRecheck = .unscheduled →
      (gst_system_clock_id_wait_jitter_unlocked restart hasNanosleep minWait
          entryt true env).jitterWrites
        = [-(gst_clock_diff env.now entryt)]) := by
  constructor
  · intro hu
    simp [gst_system_clock_id_wait_jitter_unlocked, hu]
  · intro hu
    unfold gst_system_clock_id_wait_jitter_unlocked
    rw [if_neg hu]
    by_cases hg : minWait < gst_clock_diff env.now entryt
    · simp [hg]
    · by_cases h0 : gst_clock_diff env.now entryt = 0
      · rw [h0] at hg
        simp [hg, h0]
      · simp [hg, h0]

/-- Witness for C9: a non-unscheduled entry 100ns in the future records the
single jitter write -100. -/
theorem c9_jitter_frame_witness :
    (gst_system_clock_id_wait_jitter_unlocked true true 1000 1100 true
        ⟨1000, 0, .ok, []⟩).jitterWrites = [-(100 : Int)] := by
  have h := (c9_jitter_frame true true 1000 1100 ⟨1000, 0, .ok, []⟩).2 (by decide)
  rw [h]
  decide

/-- Claim C10: when the synchronous wait finds a prior status that is neither
OK nor Unscheduled, it does not fail and does not return that status: the
anomaly is only logged, the status is overwritten with Busy, and the wait
proceeds normally (the call returns exactly what the core wait returns). -/
theorem c10_sync_anomalous_status (hasNanosleep : Bool) (minWait : Int)
    (entryt : Nat) (jitterPresent : Bool) (initialStatus : GstClockReturn)
    (env : CoreEnv) (h1 : ¬ initialStatus = .ok)
    (h2 : ¬ initialStatus = .unscheduled) :
    gst_system_clock_id_wait_jitter hasNanosleep minWait entryt jitterPresent
        initialStatus env
      = ⟨true, true,
          (gst_system_clock_id_wait_jitter_unlocked true hasNanosleep minWait
              entryt jitterPresent env).outcome.map Prod.fst⟩ := by
  unfold gst_system_clock_id_wait_jitter
  rw [if_neg h2]
  simp [h1]

/-- Witness for C10 at prior status Done: the anomaly is logged, the status is
set Busy and the wait proceeds, returning OK for an on-time entry. -/
theorem c10_sync_anomalous_status_witness :
    gst_system_clock_id_wait_jitter true 100 1000 true .done ⟨1000, 0, .busy, []⟩
      = ⟨true, true, some .ok⟩ := by
  have h := c10_sync_anomalous_status true 100 1000 true .done ⟨1000, 0, .busy, []⟩
    (by decide) (by decide)
  rw [h]
  decide

end GstSystemClock
